import Mathlib

/-!
Shallow embedding of the ADK-Auto-Anchor client layer
(src/src/functions.py and src/src/agent.py).

The central routine is handle_api_response, which normalizes a raw HTTP
response into either the parsed body (success) or an APIClientError
(failure).  Python exceptions other than APIClientError that can escape
the routine are modelled by the pyExn constructor of NormResult.
-/

namespace AutoAnchor

/-- A parsed JSON value, as produced by Python json.loads on a response
body.  Numbers are modelled as integers (no claim depends on
non-integral numbers). -/
inductive Json where
  | null
  | bool (b : Bool)
  | num (n : Int)
  | str (s : String)
  | arr (elems : List Json)
  | obj (fields : List (String × Json))

/-- Python dict lookup on a JSON object: json.loads keeps the last
binding when a key repeats, so lookup is last-wins.  Returns the raw
value, including Json.null. -/
def pyGet (fs : List (String × Json)) (k : String) : Option Json :=
  fs.foldl (fun acc p => if p.1 = k then some p.2 else acc) none

/-- Python d.get(k) maps an absent key and the value None to the same
result, since a JSON null parses to Python None. -/
def toPyOpt : Option Json → Option Json
  | some Json.null => none
  | v => v

/-- Python membership test k in d: key presence, even when the value is
null. -/
def hasKey (fs : List (String × Json)) (k : String) : Bool :=
  (pyGet fs k).isSome

/-- A single-quote character, used by the Python repr of strings. -/
def squote : String := String.singleton (Char.ofNat 39)

mutual

/-- Python repr of a parsed-JSON value (used by str on containers). -/
def pyRepr : Json → String
  | Json.null => "None"
  | Json.bool true => "True"
  | Json.bool false => "False"
  | Json.num n => toString n
  | Json.str s => squote ++ s ++ squote
  | Json.arr xs => "[" ++ pyReprSeq xs ++ "]"
  | Json.obj fs => "\x7b" ++ pyReprFields fs ++ "\x7d"

/-- Comma-separates the repr of list elements. -/
def pyReprSeq : List Json → String
  | [] => ""
  | [x] => pyRepr x
  | x :: xs => pyRepr x ++ ", " ++ pyReprSeq xs

/-- Comma-separates the repr of dict entries. -/
def pyReprFields : List (String × Json) → String
  | [] => ""
  | [(k, v)] => squote ++ k ++ squote ++ ": " ++ pyRepr v
  | (k, v) :: fs => squote ++ k ++ squote ++ ": " ++ pyRepr v ++ ", " ++ pyReprFields fs

end

/-- Python str of a parsed-JSON value: a string prints as itself, any
other value prints as its repr.  This is also what an f-string
interpolation produces. -/
def pyStr : Json → String
  | Json.str s => s
  | j => pyRepr j

/-- A raw HTTP response as seen by handle_api_response: the status code,
the raw body text, and the parsed JSON body when response.json()
succeeds (json = none models json.JSONDecodeError).  reason and url are
the response attributes that requests uses to build the text of the
HTTPError raised by raise_for_status. -/
structure RawResponse where
  status_code : Nat
  text : String
  json : Option Json
  reason : String
  url : String

/-- The response_data attribute attached to an APIClientError: the
default None, the parsed body dict (2xx application-level errors), or
the whole response object (http_err.response in the 4xx/5xx handler). -/
inductive ErrPayload where
  | noPayload
  | jsonData (j : Json)
  | responseObj (r : RawResponse)

/-- Outcome of handle_api_response: the returned data, a raised
APIClientError (message, status_code, response_data), or an escaping
Python exception of the named kind (IndexError, TypeError, KeyError,
AttributeError). -/
inductive NormResult where
  | success (data : Json)
  | failure (message : Json) (status_code : Option Nat) (response_data : ErrPayload)
  | pyExn (kind : String)

/-- True exactly on the failure constructor. -/
def NormResult.isFailure : NormResult → Bool
  | NormResult.failure _ _ _ => true
  | _ => false

/-- True exactly on the pyExn constructor. -/
def NormResult.isPyExn : NormResult → Bool
  | NormResult.pyExn _ => true
  | _ => false

/-- The message of a failure, when the result is one. -/
def NormResult.message : NormResult → Option Json
  | NormResult.failure m _ _ => some m
  | _ => none

/-- The response_data of a failure, when the result is one. -/
def NormResult.payload : NormResult → Option ErrPayload
  | NormResult.failure _ _ p => some p
  | _ => none

/-- The message requests builds for the HTTPError of raise_for_status:
code, then Client Error (4xx) or Server Error (5xx), then the reason
phrase and the url. -/
def httpErrStr (r : RawResponse) : String :=
  if r.status_code < 500 then
    toString r.status_code ++ " Client Error: " ++ r.reason ++ " for url: " ++ r.url
  else
    toString r.status_code ++ " Server Error: " ++ r.reason ++ " for url: " ++ r.url

/-- The default message when status is error but error_message is
missing (functions.py line 50). -/
def unknownApiErrorMsg : String :=
  "Unknown API error: " ++ squote ++ "status" ++ squote ++ " is " ++ squote ++
    "error" ++ squote ++ " but " ++ squote ++ "error_message" ++ squote ++ " is missing."

/-- The message for an unexpected value of the status field
(functions.py lines 76-80). -/
def unexpectedStatusMsg (st : Json) : String :=
  "API response has an unexpected " ++ squote ++ "status" ++ squote ++
    " field value: " ++ squote ++ pyStr st ++ squote

/-- err.get(loc-key, [unknown_field])[-1] followed by f-string
formatting, for a present loc value (functions.py line 101).  A list
yields the str of its last element (IndexError when empty); a string
yields its last character (IndexError when empty); a dict raises
KeyError (its keys are strings, never -1); None, bools and numbers are
not subscriptable (TypeError). -/
def pyLastOf : Json → Except String String
  | Json.arr locs =>
    match locs.getLast? with
    | some l => Except.ok (pyStr l)
    | none => Except.error "IndexError"
  | Json.str s =>
    match s.toList.getLast? with
    | some c => Except.ok (String.singleton c)
    | none => Except.error "IndexError"
  | Json.obj _ => Except.error "KeyError"
  | _ => Except.error "TypeError"

/-- One element of the FastAPI validation-error join (functions.py line
101): f-string of err.get loc default [unknown_field], last element,
then ": ", then err.get msg default empty string.  A non-dict element
raises AttributeError on .get. -/
def formatRecord : Json → Except String String
  | Json.obj f =>
    (match pyGet f "loc" with
      | none => Except.ok "unknown_field"
      | some loc => pyLastOf loc).map
      (fun locStr =>
        locStr ++ ": " ++
          (match pyGet f "msg" with
            | none => ""
            | some m => pyStr m))
  | _ => Except.error "AttributeError"

/-- The guard of functions.py lines 98-99: detail is a list, non-empty,
and its FIRST element is a dict containing both loc and msg keys. -/
def detailGuard : Json → Bool
  | Json.arr (x :: _) =>
    match x with
    | Json.obj f => hasKey f "loc" && hasKey f "msg"
    | _ => false
  | _ => false

/-- Left-to-right, fail-fast map, matching the evaluation order of the
Python list comprehension of line 101: the first exception wins. -/
def mapExcept (f : Json → Except String String) : List Json → Except String (List String)
  | [] => Except.ok []
  | x :: xs =>
    match f x with
    | Except.error k => Except.error k
    | Except.ok s =>
      match mapExcept f xs with
      | Except.error k => Except.error k
      | Except.ok ys => Except.ok (s :: ys)

/-- Message extraction from a dict error body on a 4xx/5xx response
(functions.py lines 91-104): prefer error_message, else detail, joining
a FastAPI validation list into one string, else str of the whole dict.
The error case carries the kind of the escaping Python exception. -/
def errDictMessage (fields : List (String × Json)) : Except String Json :=
  match toPyOpt (pyGet fields "error_message") with
  | some m => Except.ok m
  | none =>
    match toPyOpt (pyGet fields "detail") with
    | none => Except.ok (Json.str (pyStr (Json.obj fields)))
    | some d =>
      if detailGuard d then
        match d with
        | Json.arr recs =>
          match mapExcept formatRecord recs with
          | Except.ok parts => Except.ok (Json.str (String.intercalate "; " parts))
          | Except.error k => Except.error k
        | _ => Except.ok d
      else Except.ok d

/-- The 4xx/5xx handler of handle_api_response (functions.py lines
86-112): parse the body for a better message, fall back to the raw text
prefixed with "HTTP error: " when the body is not JSON (or to the
HTTPError text when the body is empty), and raise APIClientError with
response_data = the response object attached to the HTTPError. -/
def handleHttpErr (r : RawResponse) : NormResult :=
  match r.json with
  | some errData =>
    match errData with
    | Json.obj fields =>
      match errDictMessage fields with
      | Except.ok m => NormResult.failure m (some r.status_code) (ErrPayload.responseObj r)
      | Except.error k => NormResult.pyExn k
    | _ =>
      NormResult.failure (Json.str (pyStr errData)) (some r.status_code)
        (ErrPayload.responseObj r)
  | none =>
    NormResult.failure
      (Json.str (if r.text = "" then httpErrStr r else "HTTP error: " ++ r.text))
      (some r.status_code) (ErrPayload.responseObj r)

/-- The non-error-status path of handle_api_response (functions.py
lines 34-84): decode JSON (failure with no response_data when the body
does not parse), then dispatch on the application-level status field of
a dict body; a non-dict body is returned as successful data. -/
def handleOk (r : RawResponse) : NormResult :=
  match r.json with
  | none =>
    NormResult.failure
      (Json.str ("Failed to decode JSON response from successful HTTP call: " ++ r.text))
      (some r.status_code) ErrPayload.noPayload
  | some data =>
    match data with
    | Json.obj fields =>
      match toPyOpt (pyGet fields "status") with
      | some st =>
        match st with
        | Json.str s =>
          if s = "error" then
            NormResult.failure ((pyGet fields "error_message").getD (Json.str unknownApiErrorMsg))
              (some r.status_code) (ErrPayload.jsonData data)
          else if s = "success" then
            NormResult.success data
          else
            NormResult.failure (Json.str (unexpectedStatusMsg st)) (some r.status_code)
              (ErrPayload.jsonData data)
        | _ =>
          NormResult.failure (Json.str (unexpectedStatusMsg st)) (some r.status_code)
            (ErrPayload.jsonData data)
      | none =>
        match pyGet fields "error_message" with
        | some m => NormResult.failure m (some r.status_code) (ErrPayload.jsonData data)
        | none => NormResult.success data
    | _ => NormResult.success data

/-- handle_api_response (functions.py lines 21-116).  raise_for_status
raises HTTPError exactly for status codes in [400, 600), sending the
flow to the except-handler; otherwise the 2xx path runs.  Network-level
RequestException (line 114) presupposes that no response exists and is
outside this model, which takes a RawResponse as input. -/
def handle_api_response (r : RawResponse) : NormResult :=
  if 400 ≤ r.status_code ∧ r.status_code < 600 then handleHttpErr r
  else handleOk r

/-- The fixed base address of functions.py line 8. -/
def BASE_URL : String := "http://127.0.0.1:8084"

/-- The request an Invoker sends: method, full endpoint, query
parameters in insertion order, and the JSON body fields for POST
endpoints. -/
structure RequestDescriptor where
  method : String
  endpoint : String
  params : List (String × String)
  body : Option (List (String × Json))

/-- A query parameter added under a Python truthiness guard
(if app_name: params[...] = app_name): absent and empty values are
both dropped. -/
def truthyParam (k : String) : Option String → List (String × String)
  | some s => if s = "" then [] else [(k, s)]
  | none => []

/-- The request built by call_jenkinsfile_gen (functions.py lines
235-261): folder_path always, then app_name, port and version, each
only when truthy. -/
def call_jenkinsfile_gen_request (folder_path : String) (app_name : Option String)
    (port : Option String) (version : Option String) : RequestDescriptor :=
  { method := "GET"
    endpoint := BASE_URL ++ "/jenkinsfile-gen"
    params := [("folder_path", folder_path)] ++ truthyParam "app_name" app_name ++
      truthyParam "port" port ++ truthyParam "version" version
    body := none }

/-- The request built by call_analyzer (functions.py lines 158-186):
a JSON body that includes folder_path and environment_path only when
the argument is not None (an empty string IS sent). -/
def call_analyzer_request (folder_path : Option String)
    (environment_path : Option String) : RequestDescriptor :=
  { method := "POST"
    endpoint := BASE_URL ++ "/analyzer"
    params := []
    body := some
      ((match folder_path with
        | some s => [("folder_path", Json.str s)]
        | none => []) ++
       (match environment_path with
        | some s => [("environment_path", Json.str s)]
        | none => [])) }

/-- The keys of the query parameters of a request. -/
def RequestDescriptor.paramKeys (rd : RequestDescriptor) : List String :=
  rd.params.map Prod.fst

/-- The keys of the JSON body of a request (empty when there is no
body). -/
def RequestDescriptor.bodyKeys (rd : RequestDescriptor) : List String :=
  (rd.body.getD []).map Prod.fst

/-- The agent configuration of src/src/agent.py: a model name, an agent
name, a system instruction, and the list of functions registered as
tools, identified here by their names. -/
structure AgentConfig where
  model : String
  name : String
  instruction : String
  tools : List String

/-- root_agent (agent.py lines 14-31).  The tool list holds exactly the
seven functions passed to Agent(tools=[...]). -/
def root_agent : AgentConfig :=
  { model := "gemini-2.0-flash"
    name := "auto_anchor_agent"
    instruction := "You are the orchestrator of the below tools. A user is trying to solve a devops issue and needs your help to come up with a step by step plan. \n    Think of a strategy to solve his problem by making use of these tools in any order. The result of using all of these should solve the users problem.\n    "
    tools :=
      ["call_analyzer", "call_dockerfile_gen", "call_jenkinsfile_gen", "call_get_creds",
       "call_infra", "call_get_environments", "call_github_webhook_setup"] }

/-- The fifteen Invokers of the external-interface table, by function
name, in the order they are defined in functions.py. -/
def allInvokerNames : List String :=
  ["call_save_keys", "call_get_keys", "call_analyzer", "call_get_creds",
   "call_dockerfile_gen", "call_jenkinsfile_gen", "call_infra", "call_get_environments",
   "call_github_webhook_setup", "call_acube_cicd_plan", "call_acube_dynamic_question",
   "call_acube_answer_validator", "call_dashboard_file_data", "call_edit_file",
   "call_get_instance_ip"]

/-- A FastAPI validation record as the spec describes it: a mapping
with a loc field holding a non-empty location list and a msg field. -/
def validRecord (j : Json) : Prop :=
  ∃ f locs m, j = Json.obj f ∧ pyGet f "loc" = some (Json.arr locs) ∧ locs ≠ [] ∧
    pyGet f "msg" = some m

/-- The per-record text the spec describes: last element of loc,
a colon and a space, then msg (each rendered with Python str). -/
def specRecordMsg (j : Json) : String :=
  match j with
  | Json.obj f =>
    (match pyGet f "loc" with
      | some (Json.arr locs) =>
        match locs.getLast? with
        | some l => pyStr l
        | none => ""
      | _ => "") ++ ": " ++
    (match pyGet f "msg" with
      | some m => pyStr m
      | none => "")
  | _ => ""

/-- loc values on which the [-1] indexing of the join cannot raise: a
non-empty list or a non-empty string. -/
def safeLoc : Json → Prop
  | Json.arr locs => locs ≠ []
  | Json.str s => s.toList ≠ []
  | _ => False

/-- Records on which one step of the join runs without a Python
exception: a mapping whose loc, when present, is safe. -/
def safeRecord : Json → Prop
  | Json.obj f =>
    match pyGet f "loc" with
    | none => True
    | some l => safeLoc l
  | _ => False

/-- The record list the FastAPI join iterates over, when the 4xx/5xx
handler reaches the join at all: error_message must be absent or null,
detail present and non-null, and the guard of lines 98-99 true. -/
def triggeredRecords (fields : List (String × Json)) : Option (List Json) :=
  match toPyOpt (pyGet fields "error_message") with
  | some _ => none
  | none =>
    match toPyOpt (pyGet fields "detail") with
    | some d =>
      if detailGuard d then
        match d with
        | Json.arr recs => some recs
        | _ => none
      else none
    | none => none

/-- A 200 response whose body reports status success plus extra data. -/
def c1ex : RawResponse :=
  { status_code := 200, text := "b",
    json := some (Json.obj [("status", Json.str "success"), ("report", Json.str "ok")]),
    reason := "OK", url := "u" }

/-- A 200 response whose body reports status error with an
error_message. -/
def c2ex : RawResponse :=
  { status_code := 200, text := "b",
    json := some (Json.obj [("status", Json.str "error"), ("error_message", Json.str "X")]),
    reason := "OK", url := "u" }

/-- A 200 response whose body is not decodable as JSON. -/
def c3ex : RawResponse :=
  { status_code := 200, text := "<html>", json := none, reason := "OK", url := "u" }

/-- A 200 response whose body has a null status field. -/
def c4ex : RawResponse :=
  { status_code := 200, text := "b", json := some (Json.obj [("status", Json.null)]),
    reason := "OK", url := "u" }

/-- A 200 response whose body has the status value pending. -/
def c4exAmended : RawResponse :=
  { status_code := 200, text := "b", json := some (Json.obj [("status", Json.str "pending")]),
    reason := "OK", url := "u" }

/-- A 500 response with a plain-text, non-JSON body. -/
def c5ex : RawResponse :=
  { status_code := 500, text := "Internal Server Error", json := none,
    reason := "Internal Server Error", url := "u" }

/-- A 422 response with a FastAPI validation-error body. -/
def c6ex : RawResponse :=
  { status_code := 422, text := "t",
    json := some (Json.obj [("detail", Json.arr
      [Json.obj [("loc", Json.arr [Json.str "body", Json.str "folder_path"]),
                 ("msg", Json.str "field required")]])]),
    reason := "Unprocessable Entity", url := "u" }

/-- A 422 response with a decodable dict body carrying error_message. -/
def c7ex : RawResponse :=
  { status_code := 422, text := "t",
    json := some (Json.obj [("error_message", Json.str "X")]),
    reason := "Unprocessable Entity", url := "u" }

/-- A 422 response whose detail record has a present but empty loc
list. -/
def c8ex : RawResponse :=
  { status_code := 422, text := "t",
    json := some (Json.obj [("detail", Json.arr
      [Json.obj [("loc", Json.arr []), ("msg", Json.str "field required")]])]),
    reason := "Unprocessable Entity", url := "u" }

/-- A 404 response with a detail body that does not trigger the join. -/
def c8exSafe : RawResponse :=
  { status_code := 404, text := "t",
    json := some (Json.obj [("detail", Json.str "Not Found")]),
    reason := "Not Found", url := "u" }

/-- C1: on a 2xx response whose body parses to a mapping whose status
field equals success, handle_api_response returns Success carrying the
full parsed mapping unchanged. -/
theorem success_status_returns_body (r : RawResponse) (fields : List (String × Json))
    (hlo : 200 ≤ r.status_code) (hhi : r.status_code < 300)
    (hj : r.json = some (Json.obj fields))
    (hs : pyGet fields "status" = some (Json.str "success")) :
    handle_api_response r = NormResult.success (Json.obj fields) := by
  have hne : ¬ (400 ≤ r.status_code ∧ r.status_code < 600) := by omega
  unfold handle_api_response handleOk
  rw [if_neg hne, hj]
  simp [hs, toPyOpt]

/-- Witness for C1 at a concrete 200 response. -/
theorem success_status_returns_body_witness :
    handle_api_response c1ex =
      NormResult.success (Json.obj [("status", Json.str "success"), ("report", Json.str "ok")]) :=
  success_status_returns_body c1ex
    [("status", Json.str "success"), ("report", Json.str "ok")]
    (by decide) (by decide) rfl rfl

/-- C2: on a 2xx response whose body parses to a mapping whose status
field equals error, handle_api_response raises APIClientError whose
message is the error_message field when present, else the generic
missing-error_message text, with status_code the HTTP code and
response_data the parsed body. -/
theorem error_status_failure (r : RawResponse) (fields : List (String × Json))
    (hlo : 200 ≤ r.status_code) (hhi : r.status_code < 300)
    (hj : r.json = some (Json.obj fields))
    (hs : pyGet fields "status" = some (Json.str "error")) :
    handle_api_response r =
      NormResult.failure ((pyGet fields "error_message").getD (Json.str unknownApiErrorMsg))
        (some r.status_code) (ErrPayload.jsonData (Json.obj fields)) := by
  have hne : ¬ (400 ≤ r.status_code ∧ r.status_code < 600) := by omega
  unfold handle_api_response handleOk
  rw [if_neg hne, hj]
  simp [hs, toPyOpt]

/-- Witness for C2 at a concrete 200 response with message X. -/
theorem error_status_failure_witness :
    handle_api_response c2ex =
      NormResult.failure (Json.str "X") (some 200)
        (ErrPayload.jsonData (Json.obj [("status", Json.str "error"), ("error_message", Json.str "X")])) :=
  error_status_failure c2ex
    [("status", Json.str "error"), ("error_message", Json.str "X")]
    (by decide) (by decide) rfl rfl

/-- C3: on a 2xx response whose body is not decodable as JSON,
handle_api_response raises APIClientError whose message states the
JSON decode failure, with status_code the HTTP code; it never returns
success for such a response. -/
theorem decode_failure_on_2xx (r : RawResponse)
    (hlo : 200 ≤ r.status_code) (hhi : r.status_code < 300) (hj : r.json = none) :
    handle_api_response r =
      NormResult.failure
        (Json.str ("Failed to decode JSON response from successful HTTP call: " ++ r.text))
        (some r.status_code) ErrPayload.noPayload := by
  have hne : ¬ (400 ≤ r.status_code ∧ r.status_code < 600) := by omega
  unfold handle_api_response handleOk
  rw [if_neg hne, hj]

/-- Witness for C3 at a concrete 200 response with an HTML body. -/
theorem decode_failure_on_2xx_witness :
    handle_api_response c3ex =
      NormResult.failure
        (Json.str "Failed to decode JSON response from successful HTTP call: <html>")
        (some 200) ErrPayload.noPayload :=
  decode_failure_on_2xx c3ex (by decide) (by decide) rfl

/-- Counterexample to C4: a 200 response whose body has the status
field present with a null value is NOT turned into a failure; dict.get
maps the null to None, so the code takes the status-missing branch and
returns the body as success. -/
theorem null_status_not_failure :
    handle_api_response c4ex = NormResult.success (Json.obj [("status", Json.null)]) ∧
    (handle_api_response c4ex).isFailure = false :=
  ⟨rfl, rfl⟩

/-- The .get view of a value never yields a null: a null value is
collapsed to absence. -/
theorem toPyOpt_ne_some_null (o : Option Json) : toPyOpt o ≠ some Json.null := by
  cases o with
  | none => simp [toPyOpt]
  | some j => cases j <;> simp [toPyOpt]

/-- C4 as amended: on a 2xx response whose body parses to a mapping
whose status field is present with a NON-NULL value other than success
or error, handle_api_response raises APIClientError whose message
states the unexpected status value, with status_code the HTTP code and
response_data the body.  A null status value is treated as if the field
were absent. -/
theorem unexpected_status_failure (r : RawResponse) (fields : List (String × Json)) (st : Json)
    (hlo : 200 ≤ r.status_code) (hhi : r.status_code < 300)
    (hj : r.json = some (Json.obj fields))
    (hs : toPyOpt (pyGet fields "status") = some st)
    (hnsucc : st ≠ Json.str "success") (hnerr : st ≠ Json.str "error") :
    handle_api_response r =
      NormResult.failure (Json.str (unexpectedStatusMsg st)) (some r.status_code)
        (ErrPayload.jsonData (Json.obj fields)) := by
  have hne : ¬ (400 ≤ r.status_code ∧ r.status_code < 600) := by omega
  unfold handle_api_response handleOk
  rw [if_neg hne, hj]
  cases st with
  | str s =>
    have h1 : s ≠ "error" := fun h => hnerr (by rw [h])
    have h2 : s ≠ "success" := fun h => hnsucc (by rw [h])
    simp [hs, h1, h2]
  | null => exact absurd hs (toPyOpt_ne_some_null _)
  | bool b => simp [hs]
  | num n => simp [hs]
  | arr xs => simp [hs]
  | obj fs => simp [hs]

/-- Witness for the amended C4 at a concrete 200 response with status
pending. -/
theorem unexpected_status_failure_witness :
    handle_api_response c4exAmended =
      NormResult.failure (Json.str (unexpectedStatusMsg (Json.str "pending"))) (some 200)
        (ErrPayload.jsonData (Json.obj [("status", Json.str "pending")])) :=
  unexpected_status_failure c4exAmended [("status", Json.str "pending")] (Json.str "pending")
    (by decide) (by decide) rfl rfl (by simp) (by simp)

/-- Counterexample to C5: a 500 response with plain-text body
Internal Server Error produces the message with the HTTP error prefix,
not the raw body text alone. -/
theorem plain_text_500_message_not_raw :
    (handle_api_response c5ex).message = some (Json.str "HTTP error: Internal Server Error") ∧
    (handle_api_response c5ex).message ≠ some (Json.str "Internal Server Error") := by
  refine ⟨rfl, fun h => ?_⟩
  have h2 := Option.some.inj
    ((rfl : (handle_api_response c5ex).message =
      some (Json.str "HTTP error: Internal Server Error")).symm.trans h)
  injection h2 with h3
  exact absurd h3 (by decide)

/-- C5 as amended: on a 4xx/5xx response whose body is not decodable as
JSON and whose raw text is non-empty, handle_api_response raises
APIClientError whose message is the raw body text prefixed with
"HTTP error: ", with status_code the HTTP code. -/
theorem nonjson_error_body_message (r : RawResponse)
    (hlo : 400 ≤ r.status_code) (hhi : r.status_code < 600)
    (hj : r.json = none) (ht : r.text ≠ "") :
    handle_api_response r =
      NormResult.failure (Json.str ("HTTP error: " ++ r.text)) (some r.status_code)
        (ErrPayload.responseObj r) := by
  unfold handle_api_response handleHttpErr
  rw [if_pos ⟨hlo, hhi⟩, hj]
  simp [ht]

/-- Witness for the amended C5 at the concrete 500 response. -/
theorem nonjson_error_body_message_witness :
    handle_api_response c5ex =
      NormResult.failure (Json.str "HTTP error: Internal Server Error") (some 500)
        (ErrPayload.responseObj c5ex) :=
  nonjson_error_body_message c5ex (by decide) (by decide) rfl (by decide)

/-- On a valid validation record, one step of the join succeeds and
produces the text the spec describes. -/
theorem formatRecord_of_valid (j : Json) (h : validRecord j) :
    formatRecord j = Except.ok (specRecordMsg j) := by
  obtain ⟨f, locs, m, rfl, hloc, hne, hmsg⟩ := h
  obtain ⟨l, hl⟩ := Option.isSome_iff_exists.mp (List.getLast?_isSome.mpr hne)
  unfold formatRecord specRecordMsg pyLastOf
  simp [hloc, hmsg, hl, Except.map]

/-- On a list of valid validation records, the fail-fast map succeeds
and produces the per-record texts in order. -/
theorem mapExcept_of_valid (recs : List Json) (h : ∀ rec ∈ recs, validRecord rec) :
    mapExcept formatRecord recs = Except.ok (recs.map specRecordMsg) := by
  induction recs with
  | nil => rfl
  | cons x xs ih =>
    have hx := formatRecord_of_valid x (h x (List.mem_cons_self x xs))
    have hxs := ih (fun rec hrec => h rec (List.mem_cons_of_mem _ hrec))
    simp [mapExcept, hx, hxs]

/-- C6: on a 4xx/5xx response whose body parses to a mapping without an
error_message field, with a detail field holding a non-empty list of
validation records (each a mapping with a non-empty loc list and a msg),
handle_api_response raises APIClientError whose message joins the
records as last-of-loc, colon, msg, separated by semicolons. -/
theorem validation_detail_join (r : RawResponse) (fields : List (String × Json)) (recs : List Json)
    (hlo : 400 ≤ r.status_code) (hhi : r.status_code < 600)
    (hj : r.json = some (Json.obj fields))
    (hem : pyGet fields "error_message" = none)
    (hd : pyGet fields "detail" = some (Json.arr recs))
    (hne : recs ≠ [])
    (hv : ∀ rec ∈ recs, validRecord rec) :
    handle_api_response r =
      NormResult.failure (Json.str (String.intercalate "; " (recs.map specRecordMsg)))
        (some r.status_code) (ErrPayload.responseObj r) := by
  unfold handle_api_response handleHttpErr
  rw [if_pos ⟨hlo, hhi⟩, hj]
  have hguard : detailGuard (Json.arr recs) = true := by
    cases recs with
    | nil => exact absurd rfl hne
    | cons x xs =>
      obtain ⟨f, locs, m, rfl, hloc, hlne, hmsg⟩ := hv x (List.mem_cons_self x xs)
      simp [detailGuard, hasKey, hloc, hmsg]
  have hmap := mapExcept_of_valid recs hv
  simp [errDictMessage, hem, hd, toPyOpt, hguard, hmap]

/-- Witness for C6 at the concrete 422 validation response of the spec:
the joined message is folder_path, colon, field required. -/
theorem validation_detail_join_witness :
    handle_api_response c6ex =
      NormResult.failure (Json.str "folder_path: field required") (some 422)
        (ErrPayload.responseObj c6ex) := by
  have hv : ∀ rec ∈ ([Json.obj [("loc", Json.arr [Json.str "body", Json.str "folder_path"]),
      ("msg", Json.str "field required")]] : List Json), validRecord rec := by
    intro rec hrec
    rw [List.mem_singleton] at hrec
    subst hrec
    exact ⟨[("loc", Json.arr [Json.str "body", Json.str "folder_path"]),
      ("msg", Json.str "field required")],
      [Json.str "body", Json.str "folder_path"], Json.str "field required",
      rfl, rfl, by simp, rfl⟩
  exact validation_detail_join c6ex
    [("detail", Json.arr [Json.obj [("loc", Json.arr [Json.str "body", Json.str "folder_path"]),
      ("msg", Json.str "field required")]])]
    [Json.obj [("loc", Json.arr [Json.str "body", Json.str "folder_path"]),
      ("msg", Json.str "field required")]]
    (by decide) (by decide) rfl rfl rfl (by simp) hv

/-- Counterexample to C7: on a 422 response with a decodable dict body,
the response_data attached to the APIClientError is the response object
(http_err.response), not the parsed JSON body, and not empty either. -/
theorem error_payload_not_parsed_body :
    (handle_api_response c7ex).payload = some (ErrPayload.responseObj c7ex) ∧
    (handle_api_response c7ex).payload ≠
      some (ErrPayload.jsonData (Json.obj [("error_message", Json.str "X")])) ∧
    (handle_api_response c7ex).payload ≠ some ErrPayload.noPayload := by
  refine ⟨rfl, fun h => ?_, fun h => ?_⟩
  · have h2 := Option.some.inj
      ((rfl : (handle_api_response c7ex).payload =
        some (ErrPayload.responseObj c7ex)).symm.trans h)
    exact ErrPayload.noConfusion h2
  · have h2 := Option.some.inj
      ((rfl : (handle_api_response c7ex).payload =
        some (ErrPayload.responseObj c7ex)).symm.trans h)
    exact ErrPayload.noConfusion h2

/-- C7 as amended: whenever handle_api_response turns a 4xx/5xx
response into an APIClientError, the attached response_data is the
response object itself and the status_code is the HTTP status. -/
theorem error_payload_is_response_obj (r : RawResponse) (m : Json) (sc : Option Nat)
    (p : ErrPayload)
    (hlo : 400 ≤ r.status_code) (hhi : r.status_code < 600)
    (hf : handle_api_response r = NormResult.failure m sc p) :
    sc = some r.status_code ∧ p = ErrPayload.responseObj r := by
  unfold handle_api_response handleHttpErr at hf
  rw [if_pos ⟨hlo, hhi⟩] at hf
  split at hf
  · split at hf
    · split at hf
      · simp at hf
        exact ⟨hf.2.1.symm, hf.2.2.symm⟩
      · exact NormResult.noConfusion hf
    · simp at hf
      exact ⟨hf.2.1.symm, hf.2.2.symm⟩
  · simp at hf
    exact ⟨hf.2.1.symm, hf.2.2.symm⟩

/-- Witness for the amended C7 at the concrete 422 response. -/
theorem error_payload_is_response_obj_witness :
    (some 422 : Option Nat) = some c7ex.status_code ∧
      ErrPayload.responseObj c7ex = ErrPayload.responseObj c7ex :=
  error_payload_is_response_obj c7ex (Json.str "X") (some 422) (ErrPayload.responseObj c7ex)
    (by decide) (by decide) rfl

/-- Counterexample to C8: a 422 response whose detail record has a
present but empty loc list makes the join index an empty list, and the
IndexError escapes handle_api_response unhandled. -/
theorem empty_loc_raises_index_error :
    handle_api_response c8ex = NormResult.pyExn "IndexError" := rfl

/-- One step of the join runs without a Python exception on a safe
record. -/
theorem formatRecord_ok_of_safe (rec : Json) (h : safeRecord rec) :
    ∃ s, formatRecord rec = Except.ok s := by
  cases rec with
  | obj f =>
    simp only [safeRecord] at h
    simp only [formatRecord]
    cases hl : pyGet f "loc" with
    | none => exact ⟨_, rfl⟩
    | some loc =>
      rw [hl] at h
      cases loc with
      | arr locs =>
        obtain ⟨l, hlast⟩ := Option.isSome_iff_exists.mp (List.getLast?_isSome.mpr h)
        exact ⟨pyStr l ++ ": " ++
            (match pyGet f "msg" with | none => "" | some m => pyStr m),
          by simp [pyLastOf, hlast, Except.map]⟩
      | str s =>
        obtain ⟨c, hlast⟩ := Option.isSome_iff_exists.mp (List.getLast?_isSome.mpr h)
        exact ⟨String.singleton c ++ ": " ++
            (match pyGet f "msg" with | none => "" | some m => pyStr m),
          by simp [pyLastOf, Except.map, show s.data.getLast? = some c from hlast]⟩
      | null => exact False.elim h
      | bool b => exact False.elim h
      | num n => exact False.elim h
      | obj g => exact False.elim h
  | null => exact False.elim h
  | bool b => exact False.elim h
  | num n => exact False.elim h
  | str s => exact False.elim h
  | arr xs => exact False.elim h

/-- The whole join runs without a Python exception on a list of safe
records. -/
theorem mapExcept_ok_of_safe (recs : List Json) (h : ∀ rec ∈ recs, safeRecord rec) :
    ∃ parts, mapExcept formatRecord recs = Except.ok parts := by
  induction recs with
  | nil => exact ⟨[], rfl⟩
  | cons x xs ih =>
    obtain ⟨s, hs⟩ := formatRecord_ok_of_safe x (h x (List.mem_cons_self x xs))
    obtain ⟨ps, hps⟩ := ih (fun rec hrec => h rec (List.mem_cons_of_mem _ hrec))
    exact ⟨s :: ps, by simp [mapExcept, hs, hps]⟩

/-- Message extraction from a dict error body succeeds whenever the
records the join would iterate are all safe. -/
theorem errDictMessage_ok (fields : List (String × Json))
    (hsafe : ∀ recs, triggeredRecords fields = some recs → ∀ rec ∈ recs, safeRecord rec) :
    ∃ mm, errDictMessage fields = Except.ok mm := by
  unfold errDictMessage
  cases he : toPyOpt (pyGet fields "error_message") with
  | some m => exact ⟨m, rfl⟩
  | none =>
    cases hd : toPyOpt (pyGet fields "detail") with
    | none => exact ⟨_, rfl⟩
    | some d =>
      cases hg : detailGuard d with
      | false => simp [hg]
      | true =>
        cases d with
        | arr recs =>
          have ht : triggeredRecords fields = some recs := by
            unfold triggeredRecords
            rw [he, hd]
            simp [hg]
          obtain ⟨parts, hparts⟩ := mapExcept_ok_of_safe recs (hsafe recs ht)
          simp [hg, hparts]
        | null => simp [detailGuard] at hg
        | bool b => simp [detailGuard] at hg
        | num n => simp [detailGuard] at hg
        | str s => simp [detailGuard] at hg
        | obj g => simp [detailGuard] at hg

/-- C8 as amended: on a 4xx/5xx response, handle_api_response lets no
Python exception escape, PROVIDED that whenever the body reaches the
FastAPI validation join (a detail list whose first element is a mapping
with loc and msg keys), every joined record is a mapping whose loc, if
present, is a non-empty list or non-empty string.  A record violating
that (for instance a present but empty loc) makes an
IndexError/TypeError/KeyError/AttributeError escape. -/
theorem no_exn_for_safe_error_bodies (r : RawResponse)
    (hlo : 400 ≤ r.status_code) (hhi : r.status_code < 600)
    (hsafe : ∀ fields recs, r.json = some (Json.obj fields) →
      triggeredRecords fields = some recs → ∀ rec ∈ recs, safeRecord rec) :
    (handle_api_response r).isPyExn = false := by
  unfold handle_api_response handleHttpErr
  rw [if_pos ⟨hlo, hhi⟩]
  cases hr : r.json with
  | none => rfl
  | some errData =>
    cases errData with
    | obj fields =>
      obtain ⟨mm, hmm⟩ := errDictMessage_ok fields (fun recs ht => hsafe fields recs hr ht)
      simp [hmm, NormResult.isPyExn]
    | null => rfl
    | bool b => rfl
    | num n => rfl
    | str s => rfl
    | arr xs => rfl

/-- Witness for the amended C8 at a concrete 404 response whose detail
is a plain string (the join is never reached). -/
theorem no_exn_for_safe_error_bodies_witness :
    (handle_api_response c8exSafe).isPyExn = false :=
  no_exn_for_safe_error_bodies c8exSafe (by decide) (by decide)
    (by
      intro fields recs hjson ht
      have h1 : Json.obj [("detail", Json.str "Not Found")] = Json.obj fields :=
        Option.some.inj hjson
      injection h1 with h2
      rw [← h2] at ht
      rw [show triggeredRecords [("detail", Json.str "Not Found")] = none from rfl] at ht
      exact Option.noConfusion ht)

/-- A parameter added under a truthiness guard can only contribute its
own key. -/
theorem mem_truthyParam (k x : String) (v : Option String)
    (h : x ∈ (truthyParam k v).map Prod.fst) : x = k := by
  cases v with
  | none => simp [truthyParam] at h
  | some s =>
    by_cases hs : s = ""
    · simp [truthyParam, hs] at h
    · simp [truthyParam, hs] at h
      exact h

/-- A key of the jenkinsfile-gen request is the required folder_path
or comes from one of the three truthiness-guarded parameters. -/
theorem mem_jenkins_paramKeys (fp : String) (a p v : Option String) (x : String)
    (h : x ∈ (call_jenkinsfile_gen_request fp a p v).paramKeys) :
    x = "folder_path" ∨ x ∈ (truthyParam "app_name" a).map Prod.fst ∨
      x ∈ (truthyParam "port" p).map Prod.fst ∨
      x ∈ (truthyParam "version" v).map Prod.fst := by
  simp only [call_jenkinsfile_gen_request, RequestDescriptor.paramKeys, List.map_append,
    List.mem_append, List.map_cons, List.map_nil, List.mem_cons,
    List.not_mem_nil, or_false] at h
  tauto

/-- C9: call_jenkinsfile_gen omits each of app_name, port and version
from the query parameters when the argument is absent or empty, and
call_analyzer omits a JSON-body field when the corresponding argument
is None. -/
theorem optional_args_omitted :
    (∀ (fp : String) (a p v : Option String),
      ((a = none ∨ a = some "") →
        "app_name" ∉ (call_jenkinsfile_gen_request fp a p v).paramKeys) ∧
      ((p = none ∨ p = some "") →
        "port" ∉ (call_jenkinsfile_gen_request fp a p v).paramKeys) ∧
      ((v = none ∨ v = some "") →
        "version" ∉ (call_jenkinsfile_gen_request fp a p v).paramKeys)) ∧
    (∀ (fp ep : Option String),
      (fp = none → "folder_path" ∉ (call_analyzer_request fp ep).bodyKeys) ∧
      (ep = none → "environment_path" ∉ (call_analyzer_request fp ep).bodyKeys)) := by
  constructor
  · intro fp a p v
    refine ⟨fun ha hmem => ?_, fun hp hmem => ?_, fun hv hmem => ?_⟩
    · rcases mem_jenkins_paramKeys fp a p v _ hmem with h | h | h | h
      · exact absurd h (by decide)
      · rcases ha with rfl | rfl
        · simp [truthyParam] at h
        · simp [truthyParam] at h
      · exact absurd (mem_truthyParam _ _ _ h) (by decide)
      · exact absurd (mem_truthyParam _ _ _ h) (by decide)
    · rcases mem_jenkins_paramKeys fp a p v _ hmem with h | h | h | h
      · exact absurd h (by decide)
      · exact absurd (mem_truthyParam _ _ _ h) (by decide)
      · rcases hp with rfl | rfl
        · simp [truthyParam] at h
        · simp [truthyParam] at h
      · exact absurd (mem_truthyParam _ _ _ h) (by decide)
    · rcases mem_jenkins_paramKeys fp a p v _ hmem with h | h | h | h
      · exact absurd h (by decide)
      · exact absurd (mem_truthyParam _ _ _ h) (by decide)
      · exact absurd (mem_truthyParam _ _ _ h) (by decide)
      · rcases hv with rfl | rfl
        · simp [truthyParam] at h
        · simp [truthyParam] at h
  · intro fp ep
    refine ⟨fun hfp hmem => ?_, fun hep hmem => ?_⟩
    · subst hfp
      cases ep with
      | none => simp [call_analyzer_request, RequestDescriptor.bodyKeys] at hmem
      | some s =>
        simp [call_analyzer_request, RequestDescriptor.bodyKeys] at hmem
    · subst hep
      cases fp with
      | none => simp [call_analyzer_request, RequestDescriptor.bodyKeys] at hmem
      | some s =>
        simp [call_analyzer_request, RequestDescriptor.bodyKeys] at hmem

/-- Witness for C9 at concrete argument values: app_name absent,
version empty, port truthy; analyzer folder_path None. -/
theorem optional_args_omitted_witness :
    "app_name" ∉ (call_jenkinsfile_gen_request "f" none (some "8501") (some "")).paramKeys ∧
    "version" ∉ (call_jenkinsfile_gen_request "f" none (some "8501") (some "")).paramKeys ∧
    "folder_path" ∉ (call_analyzer_request none (some "env")).bodyKeys :=
  ⟨(optional_args_omitted.1 "f" none (some "8501") (some "")).1 (Or.inl rfl),
   (optional_args_omitted.1 "f" none (some "8501") (some "")).2.2 (Or.inr rfl),
   (optional_args_omitted.2 none (some "env")).1 rfl⟩

/-- Counterexample to C10: call_save_keys is one of the fifteen
Invokers of the external-interface table, yet it is not among the tools
registered on root_agent. -/
theorem save_keys_not_registered :
    "call_save_keys" ∈ allInvokerNames ∧ "call_save_keys" ∉ root_agent.tools := by
  exact ⟨by decide, by decide⟩

/-- C10 as amended: exactly seven of the fifteen Invokers (analyzer,
dockerfile-gen, jenkinsfile-gen, get-creds, infra, get-environments,
github-webhook-setup) are registered as tools of root_agent; the other
eight (save-keys, get-keys, the three acube endpoints,
dashboard-file-data, edit-file, get-instance-ip) are not. -/
theorem registered_tools_exact :
    root_agent.tools =
      ["call_analyzer", "call_dockerfile_gen", "call_jenkinsfile_gen", "call_get_creds",
       "call_infra", "call_get_environments", "call_github_webhook_setup"] ∧
    (root_agent.tools.all (fun t => allInvokerNames.contains t)) = true ∧
    (["call_save_keys", "call_get_keys", "call_acube_cicd_plan", "call_acube_dynamic_question",
      "call_acube_answer_validator", "call_dashboard_file_data", "call_edit_file",
      "call_get_instance_ip"].all (fun t => !root_agent.tools.contains t)) = true := by
  exact ⟨rfl, by decide, by decide⟩

end AutoAnchor
